import Mathlib

/-!
Shallow embedding of `src/llmagent/vector_store/qdrantdb.py`: the `QdrantDB`
adapter over an external vector-database client, together with the data model
(documents, collections, scored points) that its operations manipulate.

Pure-Python mutation of `self.config` / `self.client` is modelled by explicit
state passing: each adapter method takes a `QdrantDB` state and returns its
result together with the updated state.  Externally observable wire calls
(embedding-provider calls, upserts, searches) are recorded in a trace so that
properties about "no network call is made" can be stated.  Exceptions are
modelled with `Except`: `ValueError` / `AssertionError` / `AttributeError`
become constructors of `PyErr`.  Numeric vector components and similarity
scores are embedded as `Int` (no claim depends on real-valued arithmetic).
-/

deriving instance DecidableEq for Except

namespace QdrantSpec

/-- Modelled from the spec: `Document` (from `llmagent.mytypes`, not among the
provided sources) is "a record with at least a text content field"; stored
payloads are "content + any metadata fields". -/
structure Document where
  content : String
  metadata : List (String × String)
deriving DecidableEq

/-- Rebuilding a `Document` from a stored payload mapping
(`Document(**match.payload)`): the payload is the serialized field set of a
document, so reconstruction re-assembles the same fields. -/
def Document.ofPayload (d : Document) : Document :=
  ⟨d.content, d.metadata⟩

/-- The distance metrics of the external client (`Distance.COSINE` etc.). -/
inductive Distance
  | cosine
  | dot
  | euclid
deriving DecidableEq

/-- `VectorParams(size=..., distance=...)` passed to `recreate_collection`. -/
structure VectorParams where
  size : Nat
  distance : Distance
deriving DecidableEq

/-- `CollectionStatus` as reported by the external service (`GREEN` = healthy). -/
inductive CollectionStatus
  | green
  | yellow
  | red
deriving DecidableEq

/-- A stored point: id, vector, payload. -/
structure PointRec where
  id : Nat
  vector : List Int
  payload : Document
deriving DecidableEq

/-- Modelled from the spec: a collection is "a named container in the external
database holding vectors + payloads; created with a fixed vector dimensionality
and distance metric". -/
structure CollectionData where
  params : VectorParams
  status : CollectionStatus
  points : List PointRec
deriving DecidableEq

/-- Modelled from the spec: the state of the external vector-database service,
a store of named collections. -/
structure ClientState where
  collections : List (String × CollectionData)
deriving DecidableEq

/-- The `CollectionInfo` record returned by the client's `get_collection`. -/
structure CollectionInfo where
  status : CollectionStatus
  points_count : Nat
  vectors_count : Nat
deriving DecidableEq

/-- Python exceptions relevant to this adapter. -/
inductive PyErr
  | valueError (msg : String)
  | assertionError
  | attributeError
  | clientError (msg : String)
deriving DecidableEq

/-- A scored match returned by the client's `search` call. -/
structure ScoredPoint where
  id : Nat
  score : Int
  payload : Document
deriving DecidableEq

/-- Externally observable wire calls made by the adapter. -/
inductive ExtCall
  | embed (texts : List String)
  | upsert (coll : String) (npoints : Nat)
  | search (coll : String) (limit : Nat)
deriving DecidableEq

/-- Association-list lookup by collection name. -/
def lookupColl (colls : List (String × CollectionData)) (name : String) :
    Option CollectionData :=
  match colls with
  | [] => none
  | c :: rest => if c.1 = name then some c.2 else lookupColl rest name

namespace Client

/-- Modelled from the spec: the client's `get_collections`, listing the names
of all collections currently present in the store. -/
def listCollections (st : ClientState) : List String :=
  st.collections.map (·.1)

/-- Modelled from the spec: the client's `get_collection`, reporting status and
point/vector counts for an existing collection (each point stores one vector,
so both counts equal the number of stored points); raises on a missing one. -/
def getCollectionInfo (st : ClientState) (name : String) :
    Except PyErr CollectionInfo :=
  match lookupColl st.collections name with
  | some cd => .ok ⟨cd.status, cd.points.length, cd.points.length⟩
  | none => .error (.clientError "collection not found")

/-- Modelled from the spec: the client's `recreate_collection`: destroys any
existing collection of that name and recreates it empty with the given vector
parameters, in healthy status. -/
def recreateCollection (st : ClientState) (name : String) (vp : VectorParams) :
    ClientState :=
  ⟨(name, ⟨vp, .green, []⟩) :: st.collections.filter (fun c => ¬ c.1 = name)⟩

/-- Modelled from the spec: the client's `delete_collection`: removes a named
collection unconditionally. -/
def deleteColl (st : ClientState) (name : String) : ClientState :=
  ⟨st.collections.filter (fun c => ¬ c.1 = name)⟩

/-- Upserting one point: a point with the same id is overwritten in place,
otherwise the point is appended. -/
def upsertPoint (pts : List PointRec) (p : PointRec) : List PointRec :=
  if pts.any (fun q => q.id = p.id) then
    pts.map (fun q => if q.id = p.id then p else q)
  else pts ++ [p]

/-- Replace the data of collection `name`. -/
def updateColl (colls : List (String × CollectionData)) (name : String)
    (cd' : CollectionData) : List (String × CollectionData) :=
  colls.map (fun c => if c.1 = name then (name, cd') else c)

/-- Modelled from the spec: the client's `upsert` of a batch of points into an
existing collection (same id overwrites, new id is added); raises on a missing
collection. -/
def upsert (st : ClientState) (name : String) (pts : List PointRec) :
    Except PyErr ClientState :=
  match lookupColl st.collections name with
  | none => .error (.clientError "collection not found")
  | some cd =>
      .ok ⟨updateColl st.collections name
        { cd with points := pts.foldl upsertPoint cd.points }⟩

/-- Inner product of two integer-embedded vectors, the model's similarity
score for the external ANN index. -/
def innerProd (v w : List Int) : Int :=
  (v.zip w).foldl (fun a p => a + p.1 * p.2) 0

/-- Insert a scored point into a list sorted by descending score. -/
def insertScored (p : ScoredPoint) : List ScoredPoint → List ScoredPoint
  | [] => [p]
  | q :: rest =>
      if q.score ≤ p.score then p :: q :: rest else q :: insertScored p rest

/-- Sort scored points by descending score. -/
def sortByScoreDesc (l : List ScoredPoint) : List ScoredPoint :=
  l.foldr insertScored []

/-- Modelled from the spec: the matches the external ANN search produces for a
query vector: stored points scored by similarity, ranked by descending score,
truncated to the requested limit; raises on a missing collection. -/
def searchPoints (st : ClientState) (name : String) (qvec : List Int)
    (limit : Nat) : Except PyErr (List ScoredPoint) :=
  match lookupColl st.collections name with
  | none => .error (.clientError "collection not found")
  | some cd =>
      .ok ((sortByScoreDesc (cd.points.map
        (fun p => ⟨p.id, innerProd qvec p.vector, p.payload⟩))).take limit)

/-- The client's `search` call as typed at the adapter boundary: a list of
possibly-absent scored points (the adapter code guards `match is not None`). -/
def search (st : ClientState) (name : String) (qvec : List Int) (limit : Nat) :
    Except PyErr (List (Option ScoredPoint)) :=
  (searchPoints st name qvec limit).map (List.map some)

end Client

/-- `QdrantDBConfig` (connection fields that no operation modelled here reads
— url, host, port, timeout, embedding-model selection — are omitted). -/
structure QdrantDBConfig where
  cloud : Bool
  collection_name : Option String
  storage_path : String
  distance : Distance
deriving DecidableEq

/-- The adapter state: its configuration, the resolved embedding function and
its output dimensionality, and the external client's store. -/
structure QdrantDB where
  config : QdrantDBConfig
  embedding_fn : String → List Int
  embedding_dim : Nat
  client : ClientState

/-- Modelled from the spec: `_unique_hash_id` from the vector-store base class
(not among the provided sources): "an identifier derivable deterministically
from its content (a content hash)"; a rolling hash over the content's
characters, reduced modulo 2^64. -/
def hashContent (s : String) : Nat :=
  s.data.foldl (fun h c => (h * 31 + c.toNat) % 2 ^ 64) 5381

/-- The storage identifier derived for a document: a content hash. -/
def uniqueHashId (d : Document) : Nat :=
  hashContent d.content

/-- The comprehension `[match.score for match in search_result]`: extracts
every match's score; attribute access on an absent match raises
`AttributeError`. -/
def extractScores : List (Option ScoredPoint) → Except PyErr (List Int)
  | [] => .ok []
  | none :: _ => .error .attributeError
  | some sp :: rest => (extractScores rest).map (fun tl => sp.score :: tl)

/-- The assertion block of `create_collection`:
`assert collection_info.status == CollectionStatus.GREEN` and
`assert collection_info.vectors_count == 0`. -/
def createCollectionCheck (info : CollectionInfo) : Except PyErr Unit :=
  if info.status = CollectionStatus.green then
    if info.vectors_count = 0 then .ok ()
    else .error .assertionError
  else .error .assertionError

/-- `QdrantDB.list_collections`. -/
def QdrantDB.list_collections (db : QdrantDB) : List String :=
  Client.listCollections db.client

/-- `QdrantDB.create_collection`: records the name in `config.collection_name`,
recreates the collection with `size=self.embedding_dim` and
`distance=Distance.COSINE` (hard-coded in the source), then asserts the
reported status is `GREEN` with zero vectors.  The state reflects the
mutations performed before an assertion failure. -/
def QdrantDB.create_collection (db : QdrantDB) (collection_name : String) :
    Except PyErr Unit × QdrantDB :=
  let db₁ : QdrantDB :=
    { db with config := { db.config with collection_name := some collection_name } }
  let client₁ :=
    Client.recreateCollection db₁.client collection_name
      ⟨db₁.embedding_dim, Distance.cosine⟩
  let db₂ : QdrantDB := { db₁ with client := client₁ }
  match Client.getCollectionInfo client₁ collection_name with
  | .error e => (.error e, db₂)
  | .ok info => (createCollectionCheck info, db₂)

/-- `QdrantDB.set_collection`: records the active collection name, then creates
the collection only when its name is absent from `list_collections()`. -/
def QdrantDB.set_collection (db : QdrantDB) (collection_name : String) :
    Except PyErr Unit × QdrantDB :=
  let db₁ : QdrantDB :=
    { db with config := { db.config with collection_name := some collection_name } }
  if collection_name ∈ db₁.list_collections then (.ok (), db₁)
  else db₁.create_collection collection_name

/-- `QdrantDB.delete_collection`. -/
def QdrantDB.delete_collection (db : QdrantDB) (collection_name : String) :
    QdrantDB :=
  { db with client := Client.deleteColl db.client collection_name }

/-- The loop of `clear_empty_collections`: for each listed name, gets the
collection info and deletes the collection when its point count is zero,
counting deletions.  An error leaves the deletions performed so far. -/
def clearLoop (st : ClientState) (names : List String) (n : Nat) :
    Except PyErr Nat × ClientState :=
  match names with
  | [] => (.ok n, st)
  | name :: rest =>
      match Client.getCollectionInfo st name with
      | .error e => (.error e, st)
      | .ok info =>
          if info.points_count = 0 then
            clearLoop (Client.deleteColl st name) rest (n + 1)
          else clearLoop st rest n

/-- `QdrantDB.clear_empty_collections`: scans all collections, deletes every
one whose point count is zero, returns the count deleted. -/
def QdrantDB.clear_empty_collections (db : QdrantDB) :
    Except PyErr Nat × QdrantDB :=
  let r := clearLoop db.client db.list_collections 0
  (r.1, { db with client := r.2 })

/-- `QdrantDB.add_documents`: computes the batch of embeddings FIRST, then
checks `config.collection_name`, raising `ValueError` when it is unset;
otherwise derives content-hash ids and upserts (id, vector, payload) triples
into the active collection.  The trace records the wire calls made. -/
def QdrantDB.add_documents (db : QdrantDB) (documents : List Document) :
    Except PyErr Unit × QdrantDB × List ExtCall :=
  let texts := documents.map (·.content)
  let embedding_vecs := texts.map db.embedding_fn
  match db.config.collection_name with
  | none =>
      (.error (.valueError "No collection name set, cannot ingest docs"), db,
        [.embed texts])
  | some cname =>
      let ids := documents.map uniqueHashId
      let pts := (ids.zip (embedding_vecs.zip documents)).map
        (fun x => PointRec.mk x.1 x.2.1 x.2.2)
      match Client.upsert db.client cname pts with
      | .error e => (.error e, db, [.embed texts, .upsert cname pts.length])
      | .ok st =>
          (.ok (), { db with client := st },
            [.embed texts, .upsert cname pts.length])

/-- `QdrantDB.similar_texts_with_scores`: computes the query embedding FIRST,
then checks `config.collection_name`, raising `ValueError` when it is unset;
otherwise searches the active collection with `limit=k`, extracts scores from
every match (attribute access on an absent match raises), rebuilds a
`Document` from each present match's payload, returns `[]` with a warning log
when no documents were built, and otherwise zips documents with scores.  The
opaque filter expression is noted in the source as possibly non-functional and
is not modelled.  Returns (result, logs, wire-call trace); the client state is
not mutated. -/
def QdrantDB.similar_texts_with_scores (db : QdrantDB) (text : String)
    (k : Nat) (debug : Bool) :
    Except PyErr (List (Document × Int)) × List String × List ExtCall :=
  let embedding := db.embedding_fn text
  match db.config.collection_name with
  | none =>
      (.error (.valueError "No collection name set, cannot search"), [],
        [.embed [text]])
  | some cname =>
      match Client.search db.client cname embedding k with
      | .error e => (.error e, [], [.embed [text], .search cname k])
      | .ok search_result =>
          match extractScores search_result with
          | .error e => (.error e, [], [.embed [text], .search cname k])
          | .ok scores =>
              let docs := (search_result.filterMap id).map
                (fun sp => Document.ofPayload sp.payload)
              if docs.length = 0 then
                (.ok [], ["No matches found for " ++ text],
                  [.embed [text], .search cname k])
              else
                let logs := if debug then
                    ["Found " ++ toString docs.length ++ " matches, max score: "
                      ++ toString (scores.foldl max (scores.headD 0))]
                  else []
                (.ok (docs.zip scores), logs, [.embed [text], .search cname k])

/-! ### Concrete fixtures for counterexamples and witnesses -/

/-- A sample document. -/
def doc0 : Document := ⟨"hello", []⟩

/-- A sample embedding function: one-dimensional, the text's length. -/
def embFn0 : String → List Int := fun s => [(s.length : Int)]

/-- An adapter with no active collection name and an empty store. -/
def db0 : QdrantDB :=
  ⟨⟨true, none, ".qdrant/data", Distance.cosine⟩, embFn0, 1, ⟨[]⟩⟩

/-- An adapter whose active collection `"c"` exists and is empty. -/
def db1 : QdrantDB :=
  ⟨⟨true, some "c", ".qdrant/data", Distance.cosine⟩, embFn0, 1,
    ⟨[("c", ⟨⟨1, Distance.cosine⟩, .green, []⟩)]⟩⟩

/-- An adapter configured with the dot-product distance and no collection. -/
def db2 : QdrantDB :=
  ⟨⟨true, none, ".qdrant/data", Distance.dot⟩, embFn0, 1, ⟨[]⟩⟩

/-- An adapter whose store holds an empty collection `"a"` and a nonempty
collection `"b"`. -/
def db3 : QdrantDB :=
  ⟨⟨true, none, ".qdrant/data", Distance.cosine⟩, embFn0, 1,
    ⟨[("a", ⟨⟨1, Distance.cosine⟩, .green, []⟩),
      ("b", ⟨⟨1, Distance.cosine⟩, .green, [⟨5, [1], ⟨"x", []⟩⟩]⟩)]⟩⟩

/-! ### Helper lemmas -/

theorem lookupColl_recreate (st : ClientState) (name : String)
    (vp : VectorParams) :
    lookupColl (Client.recreateCollection st name vp).collections name =
      some ⟨vp, .green, []⟩ := by
  simp [Client.recreateCollection, lookupColl]

theorem getCollectionInfo_recreate (st : ClientState) (name : String)
    (vp : VectorParams) :
    Client.getCollectionInfo (Client.recreateCollection st name vp) name =
      Except.ok ⟨.green, 0, 0⟩ := by
  simp [Client.getCollectionInfo, lookupColl_recreate]

theorem create_collection_eq (db : QdrantDB) (name : String) :
    db.create_collection name =
      (Except.ok (),
        { db with
            config := { db.config with collection_name := some name },
            client := Client.recreateCollection db.client name
              ⟨db.embedding_dim, Distance.cosine⟩ }) := by
  simp only [QdrantDB.create_collection, getCollectionInfo_recreate]
  rfl

theorem add_documents_trace (db : QdrantDB) (cname : String)
    (documents : List Document) (h : db.config.collection_name = some cname) :
    (db.add_documents documents).2.2 =
      [ExtCall.embed (documents.map (·.content)),
       ExtCall.upsert cname documents.length] := by
  simp only [QdrantDB.add_documents, h]
  split <;> simp [List.length_zip]

theorem similar_trace (db : QdrantDB) (cname : String) (text : String)
    (k : Nat) (debug : Bool) (h : db.config.collection_name = some cname) :
    ExtCall.search cname k ∈ (db.similar_texts_with_scores text k debug).2.2 := by
  simp only [QdrantDB.similar_texts_with_scores, h]
  split
  · simp
  · split
    · simp
    · split
      · simp
      · simp

theorem extractScores_map_some (l : List ScoredPoint) :
    extractScores (l.map some) = Except.ok (l.map (·.score)) := by
  induction l with
  | nil => rfl
  | cons a t ih => simp [extractScores, ih, Except.map]

theorem searchPoints_length_le (st : ClientState) (name : String)
    (qvec : List Int) (limit : Nat) (pts : List ScoredPoint)
    (h : Client.searchPoints st name qvec limit = Except.ok pts) :
    pts.length ≤ limit := by
  unfold Client.searchPoints at h
  cases hl : lookupColl st.collections name with
  | none => rw [hl] at h; simp at h
  | some cd =>
      rw [hl] at h
      simp only [Except.ok.injEq] at h
      rw [← h]
      exact List.length_take_le _ _

theorem similar_ok_eq (db : QdrantDB) (cname : String) (text : String)
    (k : Nat) (debug : Bool) (pts : List ScoredPoint)
    (hc : db.config.collection_name = some cname)
    (hs : Client.searchPoints db.client cname (db.embedding_fn text) k =
      Except.ok pts) :
    (db.similar_texts_with_scores text k debug).1 =
      Except.ok (pts.map (fun sp => (Document.ofPayload sp.payload, sp.score))) := by
  have hsearch : Client.search db.client cname (db.embedding_fn text) k =
      Except.ok (pts.map some) := by
    simp [Client.search, hs, Except.map]
  cases pts with
  | nil => simp [QdrantDB.similar_texts_with_scores, hc, hsearch, extractScores]
  | cons p rest =>
      simp [QdrantDB.similar_texts_with_scores, hc, hsearch, extractScores,
        extractScores_map_some, Except.map, List.zip_map']

theorem similar_ok_inv (db : QdrantDB) (text : String) (k : Nat) (debug : Bool)
    (res : List (Document × Int))
    (h : (db.similar_texts_with_scores text k debug).1 = Except.ok res) :
    ∃ cname pts, db.config.collection_name = some cname
      ∧ Client.searchPoints db.client cname (db.embedding_fn text) k =
          Except.ok pts
      ∧ res = pts.map (fun sp => (Document.ofPayload sp.payload, sp.score)) := by
  cases hc : db.config.collection_name with
  | none => simp [QdrantDB.similar_texts_with_scores, hc] at h
  | some cname =>
      cases hs : Client.searchPoints db.client cname (db.embedding_fn text) k with
      | error e =>
          have herr : Client.search db.client cname (db.embedding_fn text) k =
              Except.error e := by
            simp [Client.search, hs, Except.map]
          simp [QdrantDB.similar_texts_with_scores, hc, herr] at h
      | ok pts =>
          rw [similar_ok_eq db cname text k debug pts hc hs] at h
          exact ⟨cname, pts, rfl, hs, (Except.ok.inj h).symm⟩

theorem nodup_middle_facts (A B : List String) (name : String)
    (h : (A ++ name :: B).Nodup) :
    name ∉ A ∧ name ∉ B ∧ (A ++ B).Nodup := by
  rw [List.nodup_append] at h
  obtain ⟨hA, hB, hd⟩ := h
  rw [List.nodup_cons] at hB
  refine ⟨fun ha => hd ha (List.mem_cons_self _ _), hB.1, ?_⟩
  rw [List.nodup_append]
  exact ⟨hA, hB.2, fun a ha hb => hd ha (List.mem_cons_of_mem _ hb)⟩

theorem filter_keep_of_not_mem (l : List (String × CollectionData))
    (name : String) (h : name ∉ l.map Prod.fst) :
    l.filter (fun c => ¬ c.1 = name) = l := by
  induction l with
  | nil => rfl
  | cons a t ih =>
      simp only [List.map_cons, List.mem_cons, not_or] at h
      simp only [List.filter_cons]
      have hcond : (decide (¬ a.1 = name)) = true := by
        simp
        exact fun e => h.1 e.symm
      rw [hcond]
      simp only [if_true]
      rw [ih h.2]

theorem lookupColl_append_right (pre rest : List (String × CollectionData))
    (name : String) (h : name ∉ pre.map Prod.fst) :
    lookupColl (pre ++ rest) name = lookupColl rest name := by
  induction pre with
  | nil => rfl
  | cons a t ih =>
      simp only [List.map_cons, List.mem_cons, not_or] at h
      simp only [List.cons_append, lookupColl]
      rw [if_neg fun e => h.1 e.symm]
      exact ih h.2

theorem deleteColl_middle (pre rest : List (String × CollectionData))
    (name : String) (cd : CollectionData)
    (hpre : name ∉ pre.map Prod.fst) (hrest : name ∉ rest.map Prod.fst) :
    Client.deleteColl ⟨pre ++ (name, cd) :: rest⟩ name = ⟨pre ++ rest⟩ := by
  unfold Client.deleteColl
  congr 1
  rw [List.filter_append, filter_keep_of_not_mem pre name hpre]
  simp [List.filter_cons]
  intro a b hab e
  subst e
  exact hrest (List.mem_map_of_mem Prod.fst hab)

theorem clearLoop_spec (post : List (String × CollectionData)) :
    ∀ (pre : List (String × CollectionData)) (n : Nat),
    ((pre ++ post).map Prod.fst).Nodup →
    clearLoop ⟨pre ++ post⟩ (post.map Prod.fst) n =
      (Except.ok (n + (post.filter (fun c => c.2.points.length = 0)).length),
       ⟨pre ++ post.filter (fun c => ¬ c.2.points.length = 0)⟩) := by
  induction post with
  | nil => intro pre n _; simp [clearLoop]
  | cons a rest ih =>
      intro pre n hno
      obtain ⟨name, cd⟩ := a
      have hno' := hno
      rw [List.map_append, List.map_cons] at hno'
      obtain ⟨hpre, hrest, hprerest⟩ := nodup_middle_facts _ _ _ hno'
      have hlook : lookupColl (pre ++ (name, cd) :: rest) name = some cd := by
        rw [lookupColl_append_right pre _ name hpre]
        simp [lookupColl]
      have hinfo : Client.getCollectionInfo ⟨pre ++ (name, cd) :: rest⟩ name =
          Except.ok ⟨cd.status, cd.points.length, cd.points.length⟩ := by
        simp [Client.getCollectionInfo, hlook]
      simp only [List.map_cons, clearLoop, hinfo]
      by_cases hz : cd.points.length = 0
      · have hz' : cd.points = [] := List.length_eq_zero.mp hz
        rw [if_pos hz, deleteColl_middle pre rest name cd hpre hrest]
        rw [ih pre (n + 1) (by rw [List.map_append]; exact hprerest)]
        simp [List.filter_cons, hz']
        omega
      · have hz' : ¬ cd.points = [] := fun e => hz (List.length_eq_zero.mpr e)
        rw [if_neg hz]
        have hsplit : pre ++ (name, cd) :: rest = (pre ++ [(name, cd)]) ++ rest := by
          simp
        rw [hsplit, ih (pre ++ [(name, cd)]) n (by rw [← hsplit]; exact hno)]
        simp [List.filter_cons, hz']

/-- The number of points stored in a named collection, when it exists. -/
def pointsCount (st : ClientState) (name : String) : Option Nat :=
  (lookupColl st.collections name).map (fun cd => cd.points.length)

theorem lookupColl_updateColl (colls : List (String × CollectionData))
    (name : String) (cd cd' : CollectionData)
    (h : lookupColl colls name = some cd) :
    lookupColl (Client.updateColl colls name cd') name = some cd' := by
  induction colls with
  | nil => simp [lookupColl] at h
  | cons a t ih =>
      by_cases ha : a.1 = name
      · simp [Client.updateColl, lookupColl, ha]
      · simp only [lookupColl, if_neg ha] at h
        simp only [Client.updateColl, List.map_cons, if_neg ha, lookupColl,
          ha, if_false]
        exact ih h

theorem mem_upsertPoint_self (pts : List PointRec) (p : PointRec) :
    p ∈ Client.upsertPoint pts p := by
  unfold Client.upsertPoint
  split
  · next hany =>
      rw [List.any_eq_true] at hany
      obtain ⟨q, hq, hqid⟩ := hany
      rw [List.mem_map]
      refine ⟨q, hq, ?_⟩
      simp only [decide_eq_true_eq] at hqid
      rw [if_pos hqid]
  · exact List.mem_append_right _ (List.mem_singleton_self p)

theorem upsertPoint_length_of_mem (pts : List PointRec) (p q : PointRec)
    (hq : q ∈ pts) (hqid : q.id = p.id) :
    (Client.upsertPoint pts p).length = pts.length := by
  have hany : (pts.any (fun r => r.id = p.id)) = true := by
    rw [List.any_eq_true]
    exact ⟨q, hq, by simp [hqid]⟩
  unfold Client.upsertPoint
  rw [if_pos hany, List.length_map]

theorem add_documents_ok_lookup (db : QdrantDB) (cname : String)
    (documents : List Document)
    (hc : db.config.collection_name = some cname)
    (hok : (db.add_documents documents).1 = Except.ok ()) :
    ∃ cd, lookupColl db.client.collections cname = some cd := by
  simp only [QdrantDB.add_documents, hc] at hok
  cases hl : lookupColl db.client.collections cname with
  | none =>
      simp only [Client.upsert, hl] at hok
      exact Except.noConfusion hok
  | some cd => exact ⟨cd, rfl⟩

theorem add_documents_single (db : QdrantDB) (cname : String) (d : Document)
    (cd : CollectionData)
    (hc : db.config.collection_name = some cname)
    (hl : lookupColl db.client.collections cname = some cd) :
    (db.add_documents [d]).1 = Except.ok ()
    ∧ ((db.add_documents [d]).2.1).config = db.config
    ∧ ((db.add_documents [d]).2.1).client.collections =
        Client.updateColl db.client.collections cname
          { cd with points := (Client.upsertPoint cd.points
              (PointRec.mk (uniqueHashId d) (db.embedding_fn d.content) d)) } := by
  simp only [QdrantDB.add_documents, hc, Client.upsert, hl]
  exact ⟨trivial, trivial, rfl⟩

/-! ### Claim theorems -/

/-- C1, counterexample: with the collection name unset, `add_documents` does
fail with a `ValueError`, but the claim's "performs no network call (in
particular, no call to the embedding provider)" is false: the wire-call trace
of a concrete call contains the embedding-provider call, which the source
issues before checking the collection name. -/
theorem c1_counterexample :
    db0.config.collection_name = none
    ∧ (db0.add_documents [doc0]).1 =
        Except.error (PyErr.valueError "No collection name set, cannot ingest docs")
    ∧ ExtCall.embed ["hello"] ∈ (db0.add_documents [doc0]).2.2 := by
  exact ⟨rfl, rfl, by decide⟩

/-- C1, amended: for every call to `add_documents` on an adapter whose
`config.collection_name` is `None`, the call fails with a `ValueError`, the
state is unchanged, and no upsert to the vector-database client is made (the
trace is exactly the one embedding-provider call, made before the check). -/
theorem c1_no_collection_no_upsert (db : QdrantDB) (documents : List Document)
    (h : db.config.collection_name = none) :
    (db.add_documents documents).1 =
      Except.error (PyErr.valueError "No collection name set, cannot ingest docs")
    ∧ (db.add_documents documents).2.1 = db
    ∧ (db.add_documents documents).2.2 =
        [ExtCall.embed (documents.map (·.content))] := by
  simp only [QdrantDB.add_documents, h]
  exact ⟨trivial, trivial, trivial⟩

/-- C1, witness for the amended theorem at a concrete adapter and document. -/
theorem c1_no_collection_no_upsert_witness :
    (db0.add_documents [doc0]).1 =
      Except.error (PyErr.valueError "No collection name set, cannot ingest docs")
    ∧ (db0.add_documents [doc0]).2.1 = db0
    ∧ (db0.add_documents [doc0]).2.2 = [ExtCall.embed ["hello"]] :=
  c1_no_collection_no_upsert db0 [doc0] rfl

/-- C2: every successful `similar_texts_with_scores` call returns exactly the
matches of the underlying ANN search, in the order the search returned them,
pairing each match's reconstructed payload document with that same match's
score. -/
theorem c2_result_pairs_matches (db : QdrantDB) (text : String) (k : Nat)
    (debug : Bool) (res : List (Document × Int))
    (h : (db.similar_texts_with_scores text k debug).1 = Except.ok res) :
    ∃ cname pts, db.config.collection_name = some cname
      ∧ Client.searchPoints db.client cname (db.embedding_fn text) k =
          Except.ok pts
      ∧ res = pts.map (fun sp => (Document.ofPayload sp.payload, sp.score)) :=
  similar_ok_inv db text k debug res h

/-- C2, witness at a concrete adapter with a successful (empty) search. -/
theorem c2_result_pairs_matches_witness :
    ∃ cname pts, db1.config.collection_name = some cname
      ∧ Client.searchPoints db1.client cname (db1.embedding_fn "q") 1 =
          Except.ok pts
      ∧ ([] : List (Document × Int)) =
          pts.map (fun sp => (Document.ofPayload sp.payload, sp.score)) :=
  c2_result_pairs_matches db1 "q" 1 false [] (by decide)

/-- C6: `similar_texts_with_scores(text, k)` never returns more than `k`
pairs; and when the ANN search yields zero matches it returns the empty list
together with a warning log entry, rather than an error. -/
theorem c6_at_most_k_empty_ok (db : QdrantDB) (text : String) (k : Nat)
    (debug : Bool) :
    (∀ res, (db.similar_texts_with_scores text k debug).1 = Except.ok res →
      res.length ≤ k)
    ∧ (∀ cname, db.config.collection_name = some cname →
        Client.searchPoints db.client cname (db.embedding_fn text) k =
          Except.ok [] →
        (db.similar_texts_with_scores text k debug).1 = Except.ok []
        ∧ ("No matches found for " ++ text) ∈
            (db.similar_texts_with_scores text k debug).2.1) := by
  constructor
  · intro res h
    obtain ⟨cname, pts, _hc, hs, hres⟩ := similar_ok_inv db text k debug res h
    rw [hres, List.length_map]
    exact searchPoints_length_le _ _ _ _ _ hs
  · intro cname hc hs
    have hsearch : Client.search db.client cname (db.embedding_fn text) k =
        Except.ok [] := by
      simp [Client.search, hs, Except.map]
    constructor
    · exact similar_ok_eq db cname text k debug [] hc hs
    · simp [QdrantDB.similar_texts_with_scores, hc, hsearch, extractScores]

/-- C6, witness: on an adapter whose active collection is empty, the search
yields zero matches, the call returns the empty list with the warning logged,
and the empty result's length is at most `k = 1`. -/
theorem c6_at_most_k_empty_ok_witness :
    (([] : List (Document × Int)).length ≤ 1)
    ∧ ((db1.similar_texts_with_scores "q" 1 false).1 = Except.ok []
        ∧ ("No matches found for " ++ "q") ∈
            (db1.similar_texts_with_scores "q" 1 false).2.1) :=
  ⟨(c6_at_most_k_empty_ok db1 "q" 1 false).1 [] (by decide),
   (c6_at_most_k_empty_ok db1 "q" 1 false).2 "c" rfl (by decide)⟩

/-- C3, counterexample: an adapter configured with the dot-product distance
still gets its collection created with the cosine distance, so "the distance
used is the config's distance field" is false. -/
theorem c3_counterexample :
    db2.config.distance = Distance.dot
    ∧ (db2.create_collection "c").1 = Except.ok ()
    ∧ lookupColl ((db2.create_collection "c").2).client.collections "c" =
        some ⟨⟨1, Distance.cosine⟩, CollectionStatus.green, []⟩
    ∧ Distance.cosine ≠ Distance.dot := by
  exact ⟨rfl, rfl, by decide, by decide⟩

/-- C3, amended: for every name, `create_collection(name)` destroys any
existing collection of that name and recreates it empty, configured with
vector size equal to the embedding provider's output dimensionality and with
the cosine distance metric hard-coded, regardless of the config's `distance`
field. -/
theorem c3_create_collection_cosine (db : QdrantDB) (name : String) :
    lookupColl ((db.create_collection name).2).client.collections name =
      some ⟨⟨db.embedding_dim, Distance.cosine⟩, CollectionStatus.green, []⟩ := by
  rw [create_collection_eq]
  exact lookupColl_recreate db.client name ⟨db.embedding_dim, Distance.cosine⟩

/-- C4: after every `create_collection(name)` call that returns normally, the
collection named `name` reports healthy (GREEN) status and zero stored
points; and whenever the reported info is not healthy or not empty, the
assertion block fails with an `AssertionError` (a fatal assertion), never
with a recoverable `ValueError`. -/
theorem c4_create_collection_postcondition (db : QdrantDB) (name : String)
    (_h : (db.create_collection name).1 = Except.ok ()) :
    Client.getCollectionInfo ((db.create_collection name).2).client name =
      Except.ok ⟨CollectionStatus.green, 0, 0⟩
    ∧ ∀ info : CollectionInfo,
        info.status ≠ CollectionStatus.green ∨ info.vectors_count ≠ 0 →
        createCollectionCheck info = Except.error PyErr.assertionError := by
  constructor
  · rw [create_collection_eq]
    exact getCollectionInfo_recreate db.client name ⟨db.embedding_dim, Distance.cosine⟩
  · intro info hinfo
    unfold createCollectionCheck
    rcases hinfo with hs | hv
    · rw [if_neg hs]
    · by_cases hg : info.status = CollectionStatus.green
      · rw [if_pos hg, if_neg hv]
      · rw [if_neg hg]

/-- C4, witness at a concrete adapter. -/
theorem c4_create_collection_postcondition_witness :
    Client.getCollectionInfo ((db0.create_collection "c").2).client "c" =
      Except.ok ⟨CollectionStatus.green, 0, 0⟩
    ∧ ∀ info : CollectionInfo,
        info.status ≠ CollectionStatus.green ∨ info.vectors_count ≠ 0 →
        createCollectionCheck info = Except.error PyErr.assertionError :=
  c4_create_collection_postcondition db0 "c" rfl

/-- C5: for a store whose collection names are distinct (the external service
keeps collection names unique), `clear_empty_collections()` succeeds, returns
the number of collections whose point count was zero before the call, and
leaves behind exactly the collections with a nonzero point count, untouched
and in order. -/
theorem c5_clear_empty_collections (db : QdrantDB)
    (h : (db.client.collections.map Prod.fst).Nodup) :
    (db.clear_empty_collections).1 =
      Except.ok ((db.client.collections.filter
        (fun c => c.2.points.length = 0)).length)
    ∧ ((db.clear_empty_collections).2).client.collections =
        db.client.collections.filter (fun c => ¬ c.2.points.length = 0) := by
  have hs : clearLoop db.client db.list_collections 0 =
      (Except.ok (0 + (db.client.collections.filter
        (fun c => c.2.points.length = 0)).length),
       ⟨db.client.collections.filter (fun c => ¬ c.2.points.length = 0)⟩) :=
    clearLoop_spec db.client.collections [] 0 (by simpa using h)
  unfold QdrantDB.clear_empty_collections
  dsimp only
  rw [hs]
  exact ⟨by simp, rfl⟩

/-- C5, witness at a concrete store with one empty and one nonempty
collection. -/
theorem c5_clear_empty_collections_witness :
    (db3.clear_empty_collections).1 =
      Except.ok ((db3.client.collections.filter
        (fun c => c.2.points.length = 0)).length)
    ∧ ((db3.clear_empty_collections).2).client.collections =
        db3.client.collections.filter (fun c => ¬ c.2.points.length = 0) :=
  c5_clear_empty_collections db3 (by decide)

/-- C7: every `add_documents` or `similar_texts_with_scores` call made while
the active collection name is unset surfaces an explicit `ValueError` to the
caller (each call returns the error once; there is no retry in the model, a
single attempt produces the error as the call's result). -/
theorem c7_unset_collection_value_error (db : QdrantDB)
    (documents : List Document) (text : String) (k : Nat) (debug : Bool)
    (h : db.config.collection_name = none) :
    (db.add_documents documents).1 =
      Except.error (PyErr.valueError "No collection name set, cannot ingest docs")
    ∧ (db.similar_texts_with_scores text k debug).1 =
      Except.error (PyErr.valueError "No collection name set, cannot search") := by
  constructor
  · simp only [QdrantDB.add_documents, h]
  · simp only [QdrantDB.similar_texts_with_scores, h]

/-- C7, witness at a concrete adapter. -/
theorem c7_unset_collection_value_error_witness :
    (db0.add_documents [doc0]).1 =
      Except.error (PyErr.valueError "No collection name set, cannot ingest docs")
    ∧ (db0.similar_texts_with_scores "q" 1 false).1 =
      Except.error (PyErr.valueError "No collection name set, cannot search") :=
  c7_unset_collection_value_error db0 [doc0] "q" 1 false rfl

/-- C8: `set_collection(name)` always records `name` as the active collection
name; when a collection of that name is already present it is not recreated
and the client's stored data is unchanged; when absent, the collection is
created empty with the embedding dimensionality and cosine distance. -/
theorem c8_set_collection (db : QdrantDB) (name : String) :
    ((db.set_collection name).2).config.collection_name = some name
    ∧ (name ∈ db.list_collections →
        (db.set_collection name).1 = Except.ok ()
        ∧ ((db.set_collection name).2).client = db.client)
    ∧ (name ∉ db.list_collections →
        lookupColl ((db.set_collection name).2).client.collections name =
          some ⟨⟨db.embedding_dim, Distance.cosine⟩, CollectionStatus.green, []⟩) := by
  refine ⟨?_, ?_, ?_⟩
  · unfold QdrantDB.set_collection
    dsimp only
    split
    · rfl
    · rw [create_collection_eq]
  · intro hmem
    unfold QdrantDB.set_collection
    dsimp only
    split
    · exact ⟨rfl, rfl⟩
    · next hn => exact absurd hmem hn
  · intro hmem
    unfold QdrantDB.set_collection
    dsimp only
    split
    · next hmem2 => exact absurd hmem2 hmem
    · rw [create_collection_eq]
      exact lookupColl_recreate db.client name ⟨db.embedding_dim, Distance.cosine⟩

/-- C8, witness at a concrete adapter whose collection already exists. -/
theorem c8_set_collection_witness :
    ((db1.set_collection "c").2).config.collection_name = some "c"
    ∧ (db1.set_collection "c").1 = Except.ok ()
    ∧ ((db1.set_collection "c").2).client = db1.client :=
  ⟨(c8_set_collection db1 "c").1,
   ((c8_set_collection db1 "c").2.1 (by decide)).1,
   ((c8_set_collection db1 "c").2.1 (by decide)).2⟩

/-- C9: documents with identical text content derive the identical storage id
(a deterministic content hash); consequently, after a successful ingest of
`d1`, re-ingesting a document `d2` with the same content leaves the active
collection's point count unchanged — the existing point is overwritten, not
duplicated. -/
theorem c9_same_content_same_id (d1 d2 : Document) (db : QdrantDB)
    (cname : String) (h : d1.content = d2.content)
    (hc : db.config.collection_name = some cname)
    (hok : (db.add_documents [d1]).1 = Except.ok ()) :
    uniqueHashId d1 = uniqueHashId d2
    ∧ pointsCount ((((db.add_documents [d1]).2.1).add_documents [d2]).2.1).client
          cname =
        pointsCount ((db.add_documents [d1]).2.1).client cname := by
  have hid : uniqueHashId d1 = uniqueHashId d2 := by
    unfold uniqueHashId
    rw [h]
  refine ⟨hid, ?_⟩
  obtain ⟨cd, hl⟩ := add_documents_ok_lookup db cname [d1] hc hok
  obtain ⟨-, hcfg1, hcl1⟩ := add_documents_single db cname d1 cd hc hl
  have hc1 : ((db.add_documents [d1]).2.1).config.collection_name = some cname := by
    rw [hcfg1]
    exact hc
  have hl1 : lookupColl ((db.add_documents [d1]).2.1).client.collections cname =
      some { cd with points := (Client.upsertPoint cd.points
        (PointRec.mk (uniqueHashId d1) (db.embedding_fn d1.content) d1)) } := by
    rw [hcl1]
    exact lookupColl_updateColl _ _ cd _ hl
  obtain ⟨-, -, hcl2⟩ :=
    add_documents_single ((db.add_documents [d1]).2.1) cname d2 _ hc1 hl1
  unfold pointsCount
  rw [hcl2, hl1, lookupColl_updateColl _ _ _ _ hl1]
  simp only [Option.map_some']
  congr 1
  exact upsertPoint_length_of_mem _ _
    (PointRec.mk (uniqueHashId d1) (db.embedding_fn d1.content) d1)
    (mem_upsertPoint_self _ _) hid

/-- C9, witness: two concrete documents with equal content and different
metadata, ingested twice into a concrete adapter. -/
theorem c9_same_content_same_id_witness :
    uniqueHashId doc0 = uniqueHashId ⟨"hello", [("k", "v")]⟩
    ∧ pointsCount ((((db1.add_documents [doc0]).2.1).add_documents
          [⟨"hello", [("k", "v")]⟩]).2.1).client "c" =
        pointsCount ((db1.add_documents [doc0]).2.1).client "c" :=
  c9_same_content_same_id doc0 ⟨"hello", [("k", "v")]⟩ db1 "c" rfl rfl (by decide)

/-- C10: `create_collection(name)` mutates `config.collection_name` to `name`
as a side effect, so a subsequent `add_documents` upserts into collection
`name` and a subsequent `similar_texts_with_scores` searches collection
`name`, as their wire-call traces show. -/
theorem c10_create_collection_sets_active (db : QdrantDB) (name : String)
    (documents : List Document) (text : String) (k : Nat) (debug : Bool) :
    ((db.create_collection name).2).config.collection_name = some name
    ∧ (((db.create_collection name).2).add_documents documents).2.2 =
        [ExtCall.embed (documents.map (·.content)),
         ExtCall.upsert name documents.length]
    ∧ ExtCall.search name k ∈
        (((db.create_collection name).2).similar_texts_with_scores text k debug).2.2 := by
  refine ⟨?_, ?_, ?_⟩
  · rw [create_collection_eq]
  · exact add_documents_trace _ name documents (by rw [create_collection_eq])
  · exact similar_trace _ name text k debug (by rw [create_collection_eq])

end QdrantSpec
